import Mathlib

/-!
Shallow embedding of the detection-and-decision pipeline of the
`data_migration_agent` repository: the observer (`backend/agents/observer_agent.py`),
the reasoner (`backend/agents/reasoning_agent.py`), the decider
(`backend/agents/decision_agent.py`), the event store
(`backend/memory/event_store.py`), the memory manager
(`backend/memory/memory_manager.py`), the detection job
(`backend/jobs/detect_incidents.py`) and the approval route
(`backend/api/routes/actions.py`).

Python dictionaries become Lean structures; Python floats for confidence
values become `ℚ` (all confidences in the source are short decimal literals,
compared exactly); SQLite tables become lists of row structures; the
`datetime.utcnow()` timestamp becomes an explicit `now` parameter.
Optional dictionary keys become `Option` fields.  Fields that the source
reads with a falsy default (`event.get("error_code", "")`,
`e.get("timestamp") or e.get("first_seen")`) are modelled as `String` with
`""` standing for an absent value, matching Python truthiness.
-/

/-- Models Python `leads` check used by substring containment: `pat` is an
initial segment of `s` (on character lists). -/
def charsLead : List Char → List Char → Bool
  | [], _ => true
  | _ :: _, [] => false
  | a :: as, b :: bs => a == b && charsLead as bs

/-- `charsWithin pat s`: `pat` occurs contiguously inside `s`. -/
def charsWithin (pat : List Char) : List Char → Bool
  | [] => pat.isEmpty
  | b :: bs => charsLead pat (b :: bs) || charsWithin pat bs

/-- Models the Python substring test `pat in s` (for nonempty `pat`). -/
def strContains (s pat : String) : Bool :=
  charsWithin pat.data s.data

/-- Models Python `s.lower()` (ASCII statuses and causes), over the character
list. -/
def strLower (s : String) : String :=
  ⟨s.data.map Char.toLower⟩

/-- Lexicographic (code-point) comparison of character lists: Python string
`<`. -/
def charsLt : List Char → List Char → Bool
  | [], [] => false
  | [], _ :: _ => true
  | _ :: _, [] => false
  | a :: as, b :: bs =>
      if a < b then true else if b < a then false else charsLt as bs

/-- Python string `<`. -/
def strLt (a b : String) : Bool :=
  charsLt a.data b.data

/-- Python string `<=` (total order, so `a <= b` iff `¬ b < a`). -/
def strLe (a b : String) : Bool :=
  !(strLt b a)

/-- Stable insertion into a sorted list: `a` goes in front of the first
element it is `le`-below-or-equal to. -/
def insertSorted {α : Type} (le : α → α → Bool) (a : α) : List α → List α
  | [] => [a]
  | b :: bs => if le a b then a :: b :: bs else b :: insertSorted le a bs

/-- Stable insertion sort, modelling Python `sorted` / `Counter.most_common`
ordering and SQLite `ORDER BY` (ties keep insertion order). -/
def sortBy {α : Type} (le : α → α → Bool) : List α → List α
  | [] => []
  | a :: as => insertSorted le a (sortBy le as)

namespace ObserverAgent

/-- One event dict as seen by `ObserverAgent.observe`.  The string fields use
`""` for a missing/falsy value, mirroring how the source reads them
(`event.get("error_code")` guarded by `if not error_code`,
`event.get("timestamp") or event.get("first_seen")`,
`event.get("migration_stage", "unknown")` with the caller supplying
`"unknown"` when absent). -/
structure Event where
  id : Nat := 0
  event_type : String := "unknown"
  merchant_id : String := ""
  migration_stage : String := "unknown"
  error_code : String := ""
  timestamp : String := ""
  first_seen : String := ""
  endpoint : String := ""
  source : String := "unknown"
  occurrence_count : Nat := 1
  http_status : Nat := 200
  deriving Repr, DecidableEq

/-- A detected pattern dict.  `errorCluster` carries the fields written by
`_detect_error_clusters`, `migrationCorrelation` those of
`_detect_migration_correlation` (with `top_errors` as code/count pairs), and
`temporalSpike` those of `_detect_temporal_spikes`. -/
inductive Pattern where
  | errorCluster (error_code : String) (affected_merchants : Nat)
      (total_occurrences : Nat) (affected_endpoints : List String)
      (affected_sources : List String) (first_seen : String) (severity : String)
  | migrationCorrelation (migration_stage : String) (affected_merchants : Nat)
      (top_errors : List (String × Nat)) (severity : String)
  | temporalSpike (time_window : String) (event_count : Nat) (severity : String)
  deriving Repr, DecidableEq

/-- The `severity_breakdown` dict of `_analyze_severity`. -/
structure SeverityBreakdown where
  critical : Nat := 0
  high : Nat := 0
  medium : Nat := 0
  low : Nat := 0
  deriving Repr, DecidableEq

/-- The observation dict returned by `ObserverAgent.observe`.  For an empty
batch the source returns a dict without a `severity_breakdown` key; every
downstream read uses `observation.get("severity_breakdown", {})`, whose
lookups behave exactly like the all-zero breakdown, so the empty case is
modelled with the zero breakdown. -/
structure Observation where
  patterns : List Pattern
  raw_event_count : Nat
  severity_breakdown : SeverityBreakdown := {}
  summary : String
  deriving Repr, DecidableEq

/-- `event.get("error_code")` with the `if not error_code: continue` guard:
an empty code means the event is skipped by clustering. -/
def eventCode (e : Event) : Option String :=
  if e.error_code = "" then none else some e.error_code

/-- Distinct error codes among the events, in first-occurrence order
(Python dict insertion order of the `clusters` defaultdict). -/
def distinctCodes (events : List Event) : List String :=
  events.foldl
    (fun acc e =>
      match eventCode e with
      | none => acc
      | some c => if acc.contains c then acc else acc ++ [c])
    []

/-- The events grouped under one error code. -/
def eventsWithCode (events : List Event) (code : String) : List Event :=
  events.filter (fun e => eventCode e = some code)

/-- Distinct values of a projection, in first-occurrence order (a Python
`set`, observed only through its size / membership). -/
def distinctVals (f : Event → String) (events : List Event) : List String :=
  events.foldl
    (fun acc e => if acc.contains (f e) then acc else acc ++ [f e])
    []

/-- Number of distinct merchants reporting the given error code
(`len(clusters[error_code]["merchants"])`). -/
def merchantCount (events : List Event) (code : String) : Nat :=
  (distinctVals (·.merchant_id) (eventsWithCode events code)).length

/-- `clusters[error_code]["occurrences"]`: sum of `occurrence_count`. -/
def occurrenceTotal (events : List Event) (code : String) : Nat :=
  ((eventsWithCode events code).map (·.occurrence_count)).sum

/-- `clusters[error_code]["first_seen"]`, starting from the falsy `None`
(here `""`): replaced by each timestamp that is string-smaller or when still
falsy. -/
def firstSeen (events : List Event) (code : String) : String :=
  (eventsWithCode events code).foldl
    (fun acc x => if acc = "" ∨ strLt x.timestamp acc then x.timestamp else acc) ""

/-- `ObserverAgent._detect_error_clusters`: group events by `error_code`
(skipping falsy codes), emit a pattern for each code with at least
`spike_threshold` distinct merchants; severity is `high` when at least five
merchants are affected, else `medium`. -/
def detectErrorClusters (spike_threshold : Nat) (events : List Event) :
    List Pattern :=
  (distinctCodes events).filterMap fun code =>
    let m := merchantCount events code
    if m ≥ spike_threshold then
      some (.errorCluster code m (occurrenceTotal events code)
        (distinctVals (·.endpoint) (eventsWithCode events code))
        (distinctVals (·.source) (eventsWithCode events code))
        (firstSeen events code)
        (if m ≥ 5 then "high" else "medium"))
    else none

/-- Distinct migration stages in first-occurrence order (insertion order of
the `migration_buckets` defaultdict). -/
def distinctStages (events : List Event) : List String :=
  events.foldl
    (fun acc e =>
      if acc.contains e.migration_stage then acc else acc ++ [e.migration_stage])
    []

/-- The events in a given migration stage. -/
def eventsInStage (events : List Event) (stage : String) : List Event :=
  events.filter (fun e => e.migration_stage = stage)

/-- `migration_buckets[stage]["error_codes"].most_common(3)`: per-code counts
in first-occurrence order, stably sorted by count descending, first three. -/
def topErrors (events : List Event) (stage : String) : List (String × Nat) :=
  let inStage := eventsInStage events stage
  let codes := inStage.foldl
    (fun acc e => if acc.contains e.error_code then acc else acc ++ [e.error_code]) []
  let pairs := codes.map fun c =>
    (c, (inStage.filter (fun e => e.error_code = c)).length)
  (sortBy (fun a b => b.2 ≤ a.2) pairs).take 3

/-- `ObserverAgent._detect_migration_correlation`: bucket by stage, skip the
`"unknown"` stage, emit a pattern when at least two distinct merchants are in
the bucket; severity is `high` for the stages adjacent to cutover. -/
def detectMigrationCorrelation (events : List Event) : List Pattern :=
  (distinctStages events).filterMap fun stage =>
    if stage = "unknown" then none
    else
      let m := (distinctVals (·.merchant_id) (eventsInStage events stage)).length
      if m ≥ 2 then
        some (.migrationCorrelation stage m (topErrors events stage)
          (if stage = "during_migration" ∨ stage = "post_migration"
           then "high" else "medium"))
      else none

/-- `e.get("timestamp") or e.get("first_seen")` with Python truthiness. -/
def eventTimestamp (e : Event) : String :=
  if e.timestamp ≠ "" then e.timestamp else e.first_seen

/-- `ObserverAgent._detect_temporal_spikes`: when any event carries a (truthy)
timestamp, a single spike pattern is returned whose severity depends on the
batch volume; otherwise no pattern.  The `try` body cannot raise: it only
takes a `max` of a nonempty string list. -/
def detectTemporalSpikes (events : List Event) : List Pattern :=
  if events.isEmpty then []
  else
    let timestamps := (events.map eventTimestamp).filter (· ≠ "")
    if timestamps.isEmpty then []
    else
      [.temporalSpike "last_2_hours" events.length
        (if events.length > 10 then "high" else "medium")]

/-- `ObserverAgent._analyze_severity`: HTTP-status classes, with 429 or a
checkout/payment marker in the error code counted as `high`. -/
def analyzeSeverity (events : List Event) : SeverityBreakdown :=
  events.foldl
    (fun acc e =>
      if e.http_status ≥ 500 then { acc with critical := acc.critical + 1 }
      else if e.http_status = 429 ∨ strContains e.error_code "CHECKOUT"
              ∨ strContains e.error_code "PAYMENT" then
        { acc with high := acc.high + 1 }
      else if e.http_status ≥ 400 then { acc with medium := acc.medium + 1 }
      else { acc with low := acc.low + 1 })
    {}

/-- `ObserverAgent._generate_summary`. -/
def generateSummary (patterns : List Pattern) (events : List Event) : String :=
  let n := events.length
  if patterns.isEmpty then
    s!"Analyzed {n} events. No significant patterns detected."
  else
    let hs := patterns.filter fun p =>
      match p with
      | .errorCluster _ _ _ _ _ _ sev => sev = "high"
      | .migrationCorrelation _ _ _ sev => sev = "high"
      | .temporalSpike _ _ sev => sev = "high"
    let k := hs.length
    if k > 0 then
      s!"⚠️  {k} high-severity patterns detected across {n} events"
    else
      let m := patterns.length
      s!"{m} patterns detected across {n} events"

/-- `ObserverAgent.observe`: the full observation pipeline, parameterised by
the configurable `spike_threshold` (constructor default 3; the orchestrator
passes 2). -/
def observe (spike_threshold : Nat) (events : List Event) : Observation :=
  if events.isEmpty then
    { patterns := []
      raw_event_count := 0
      summary := "No events to analyze" }
  else
    let patterns :=
      detectErrorClusters spike_threshold events
        ++ detectMigrationCorrelation events
        ++ detectTemporalSpikes events
    { patterns := patterns
      raw_event_count := events.length
      severity_breakdown := analyzeSeverity events
      summary := generateSummary patterns events }

end ObserverAgent

namespace ReasoningAgent

open ObserverAgent

/-- A hypothesis dict `{cause, confidence, reasoning, evidence}`. -/
structure Hypothesis where
  cause : String
  confidence : ℚ
  reasoning : String
  evidence : List String := []
  deriving Repr, DecidableEq

/-- An alternative-hypothesis dict (no evidence list in the source). -/
structure AltHypothesis where
  cause : String
  confidence : ℚ
  reasoning : String
  deriving Repr, DecidableEq

/-- The dict returned by `ReasoningAgent.reason`.  The sentinel carries
`confidence`/`evidence` keys that the heuristic result does not, and vice
versa for `analysis_method`/`patterns_analyzed`; the optional fields model
key presence. -/
structure HypothesisSet where
  primary_hypothesis : Option Hypothesis
  alternative_hypotheses : List AltHypothesis
  unknowns : List String
  confidence : Option ℚ := none
  evidence : Option (List String) := none
  analysis_method : Option String := none
  patterns_analyzed : Option Nat := none
  deriving Repr, DecidableEq

/-- `p["pattern_type"] == "migration_correlation"`. -/
def isMigrationCorrelation : Pattern → Bool
  | .migrationCorrelation .. => true
  | _ => false

/-- `p["pattern_type"] == "error_cluster"`. -/
def isErrorCluster : Pattern → Bool
  | .errorCluster .. => true
  | _ => false

/-- The `error_codes` list accumulated over the error-cluster patterns. -/
def clusterCodes (patterns : List Pattern) : List String :=
  patterns.filterMap fun p =>
    match p with
    | .errorCluster code _ _ _ _ _ _ => some code
    | _ => none

/-- The `affected_merchants_total` accumulator over error-cluster patterns
(summed identically in the reasoner and in the decider). -/
def clusterMerchantsTotal (patterns : List Pattern) : Nat :=
  (patterns.filterMap fun p =>
    match p with
    | .errorCluster _ m _ _ _ _ _ => some m
    | _ => none).sum

/-- The sentinel `HypothesisSet` returned for a pattern-free observation. -/
def sentinelHypothesisSet : HypothesisSet :=
  { primary_hypothesis := none
    alternative_hypotheses := []
    unknowns := ["Insufficient data for analysis"]
    confidence := some 0
    evidence := some [] }

/-- `ReasoningAgent._reason_with_heuristics`: deterministic rule-based
hypothesis generation with fixed confidence constants. -/
def reasonWithHeuristics (obs : Observation) : HypothesisSet :=
  let patterns := obs.patterns
  let has_migration_correlation := patterns.any isMigrationCorrelation
  let has_error_cluster := patterns.any isErrorCluster
  let error_codes := clusterCodes patterns
  let n := clusterMerchantsTotal patterns
  let codesStr := String.intercalate ", " (error_codes.take 3)
  let pr : Hypothesis × List AltHypothesis :=
    if has_migration_correlation ∧ has_error_cluster then
      ({ cause := "Migration configuration mismatch"
         confidence := mkRat 75 100
         reasoning := "Errors are clustered by migration stage and affect multiple merchants"
         evidence := [s!"Multiple merchants ({n}) affected",
                      "Errors correlated with migration stages",
                      s!"Error codes: {codesStr}"] },
       [{ cause := "Documentation gap in migration guide", confidence := mkRat 15 100,
          reasoning := "Merchants may have followed outdated docs" },
        { cause := "Platform regression in recent release", confidence := mkRat 10 100,
          reasoning := "Could be a new bug introduced" }])
    else if has_error_cluster then
      let primary_error := error_codes.headD "UNKNOWN"
      let primary : Hypothesis :=
        if strContains primary_error "WEBHOOK" then
          { cause := "Webhook endpoint misconfiguration"
            confidence := mkRat 70 100
            reasoning := "Webhook-related errors affecting multiple merchants"
            evidence := [s!"{n} merchants reporting webhook issues",
                         "Common pattern: endpoint deprecation or URL validation"] }
        else if strContains primary_error "PAYMENT" ∨ strContains primary_error "CHECKOUT" then
          { cause := "Checkout/Payment flow breaking change"
            confidence := mkRat 72 100
            reasoning := "Revenue-critical checkout errors detected"
            evidence := [s!"Checkout failures across {n} merchants",
                         "High severity due to payment impact"] }
        else if strContains primary_error "AUTH" then
          { cause := "API authentication version mismatch"
            confidence := mkRat 68 100
            reasoning := "Auth tokens incompatible with new API version"
            evidence := [s!"Auth failures across {n} merchants",
                         "Likely related to API v2 → v3 migration"] }
        else
          { cause := "API compatibility issue"
            confidence := mkRat 60 100
            reasoning := "Multiple merchants experiencing same error"
            evidence := [s!"Error code: {primary_error}",
                         s!"{n} merchants affected"] }
      (primary,
       [{ cause := "Merchant-side implementation error", confidence := mkRat 20 100,
          reasoning := "Could be common coding mistake" },
        { cause := "Rate limiting or capacity issue", confidence := mkRat 10 100,
          reasoning := "Could be infrastructure constraint" }])
    else
      let m := patterns.length
      ({ cause := "Requires manual investigation"
         confidence := mkRat 40 100
         reasoning := "Patterns detected but no clear root cause identified"
         evidence := [s!"{m} patterns detected",
                      "Insufficient correlation for automated diagnosis"] },
       [])
  let unknowns :=
    (if ¬ has_migration_correlation then ["Migration stage not tracked for all events"] else [])
    ++ (if obs.severity_breakdown.critical = 0 then
          ["No critical (5xx) errors - may be client-side issues"] else [])
    ++ ["Merchant implementation details not available",
        "Recent platform changes/deployments not provided"]
  { primary_hypothesis := some pr.1
    alternative_hypotheses := pr.2
    unknowns := unknowns
    analysis_method := some "heuristic"
    patterns_analyzed := some patterns.length }

/-- `ReasoningAgent.reason` in heuristic mode (`use_llm = False`; the oracle
mode falls back to the same function on any contract violation): a
pattern-free observation produces the sentinel, never an exception. -/
def reason (obs : Observation) : HypothesisSet :=
  if obs.patterns.isEmpty then sentinelHypothesisSet
  else reasonWithHeuristics obs

end ReasoningAgent

namespace DecisionAgent

open ObserverAgent ReasoningAgent

/-- `self.confidence_threshold_high`. -/
def confidence_threshold_high : ℚ := mkRat 70 100

/-- `self.confidence_threshold_medium`. -/
def confidence_threshold_medium : ℚ := mkRat 50 100

/-- `self.merchant_threshold_urgent`. -/
def merchant_threshold_urgent : Nat := 10

/-- `self.merchant_threshold_significant`. -/
def merchant_threshold_significant : Nat := 3

/-- One recommended-action dict.  The nested `details` dicts of the different
action types are flattened into optional `d_`-prefixed fields; a `none`
field models an absent key. -/
structure ActionRec where
  type : String
  priority : Option String := none
  reason : Option String := none
  target : Option String := none
  channel : Option String := none
  message_template : Option String := none
  d_affected_merchants : Option Nat := none
  d_root_cause : Option String := none
  d_confidence : Option ℚ := none
  d_merchant_count : Option Nat := none
  d_workaround_available : Option Bool := none
  d_resolution_eta : Option String := none
  d_title : Option String := none
  d_category : Option String := none
  d_priority : Option String := none
  d_probable_cause : Option String := none
  d_pattern_count : Option Nat := none
  d_suggested_action : Option String := none
  d_unknowns : Option (List String) := none
  d_summary : Option String := none
  d_impact_merchants : Option Nat := none
  d_impact_severity : Option String := none
  deriving Repr, DecidableEq

/-- The `estimated_impact` dict. -/
structure EstimatedImpact where
  merchants_affected : Nat
  revenue_impact : String
  support_ticket_volume : String
  deriving Repr, DecidableEq

/-- The `reasoning_summary` dict. -/
structure ReasoningSummary where
  primary_cause : Option String
  confidence : ℚ
  key_evidence : List String
  deriving Repr, DecidableEq

/-- A decision dict.  `estimated_impact` and `reasoning_summary` are absent
from the default decision, hence optional. -/
structure Decision where
  recommended_actions : List ActionRec
  requires_human_approval : Bool
  risk_level : String
  urgency : String
  blast_radius : String
  estimated_impact : Option EstimatedImpact := none
  reasoning_summary : Option ReasoningSummary := none
  deriving Repr, DecidableEq

/-- `total_merchants`: the sum computed in `_decide_with_rules`,
`_validate_and_enhance_decision` and `_build_decision_prompt` over the
error-cluster patterns (it equals the reasoner's accumulator). -/
def totalMerchants (patterns : List Pattern) : Nat :=
  clusterMerchantsTotal patterns

/-- Models `kw in str(p)` for the uppercase keywords `CHECKOUT`/`PAYMENT`: in
the `str()` of a pattern dict an uppercase keyword can only occur inside the
pattern's string values — every key and every fixed value written by the
observer (`error_cluster`, `migration_correlation`, `temporal_spike`,
`high`, `medium`, `last_2_hours`) is lowercase — so the test reduces to
containment in those string fields. -/
def patternMentions (p : Pattern) (kw : String) : Bool :=
  match p with
  | .errorCluster code _ _ endpoints sources fs _ =>
      strContains code kw || endpoints.any (strContains · kw)
        || sources.any (strContains · kw) || strContains fs kw
  | .migrationCorrelation stage _ tops _ =>
      strContains stage kw || tops.any (fun t => strContains t.1 kw)
  | .temporalSpike tw _ _ => strContains tw kw

/-- `has_checkout_impact = any("CHECKOUT" in str(p) or "PAYMENT" in str(p)
for p in patterns)`. -/
def hasCheckoutImpact (patterns : List Pattern) : Bool :=
  patterns.any fun p => patternMentions p "CHECKOUT" || patternMentions p "PAYMENT"

/-- `DecisionAgent._assess_blast_radius`. -/
def assessBlastRadius (merchant_count : Nat) (checkout_impact : Bool) : String :=
  if checkout_impact ∧ merchant_count ≥ merchant_threshold_urgent then
    "critical - widespread revenue impact"
  else if merchant_count ≥ merchant_threshold_urgent then
    "high - many merchants affected"
  else if merchant_count ≥ merchant_threshold_significant then
    "medium - multiple merchants"
  else
    "low - isolated incidents"

/-- `DecisionAgent._select_message_template`. -/
def selectMessageTemplate (cause : String) : String :=
  let c := (strLower cause)
  if strContains c "webhook" then "webhook_configuration_issue"
  else if strContains c "auth" ∨ strContains c "token" then
    "authentication_migration_guide"
  else if strContains c "checkout" ∨ strContains c "payment" then
    "checkout_troubleshooting"
  else if strContains c "rate limit" then "rate_limit_guidance"
  else "general_migration_issue"

/-- `DecisionAgent._has_workaround`. -/
def hasWorkaround (cause : String) : Bool :=
  ["configuration", "webhook", "documentation", "token"].any fun kw =>
    strContains (strLower cause) kw

/-- `DecisionAgent._estimate_resolution_time`. -/
def estimateResolutionTime (cause : String) : String :=
  let c := (strLower cause)
  if strContains c "documentation" then "immediate - docs will be updated"
  else if strContains c "configuration" then "< 1 hour - merchant can self-resolve"
  else if strContains c "platform" ∨ strContains c "regression" then
    "2-4 hours - engineering fix required"
  else "investigating"

/-- `DecisionAgent._decide_with_rules`.  The source re-reads
`reasoning["primary_hypothesis"]`, which `decide` has already checked to be
truthy, so the hypothesis is passed explicitly; `reasoning` supplies the
`unknowns` read in the low-confidence branch.  Returns the branch actions
followed by the unconditional `incident_report_draft`. -/
def decideWithRules (primary_hyp : Hypothesis) (reasoning : HypothesisSet)
    (obs : Observation) : Decision :=
  let confidence := primary_hyp.confidence
  let cause := primary_hyp.cause
  let patterns := obs.patterns
  let total_merchants := totalMerchants patterns
  let has_checkout_impact := hasCheckoutImpact patterns
  -- (actions, risk_level, requires_approval, urgency)
  let branch : List ActionRec × String × Bool × String :=
    if has_checkout_impact ∧ confidence ≥ confidence_threshold_medium then
      let esc : ActionRec :=
        { type := "engineering_escalation"
          priority := some "P0"
          reason := some "Revenue-impacting checkout failures detected"
          d_affected_merchants := some total_merchants
          d_root_cause := some cause
          d_confidence := some confidence }
      let comm : List ActionRec :=
        if total_merchants ≥ merchant_threshold_significant then
          [{ type := "proactive_merchant_communication"
             target := some "affected_merchants"
             channel := some "email_and_dashboard"
             message_template := some "checkout_issue_proactive"
             d_merchant_count := some total_merchants
             d_workaround_available := some (hasWorkaround cause) }]
        else []
      (esc :: comm, "high", true, "urgent")
    else if confidence ≥ confidence_threshold_high then
      let comm : List ActionRec :=
        if total_merchants ≥ merchant_threshold_significant then
          [{ type := "proactive_merchant_communication"
             target := some "affected_merchants"
             channel := some "email"
             message_template := some (selectMessageTemplate cause)
             d_merchant_count := some total_merchants
             d_root_cause := some cause
             d_resolution_eta := some (estimateResolutionTime cause) }]
        else []
      let kb : ActionRec :=
        { type := "knowledge_base_update"
          reason := some "Common issue identified"
          d_title := some s!"Migration Issue: {cause}"
          d_category := some "migration"
          d_priority := some "high" }
      let docs : List ActionRec :=
        if strContains (strLower cause) "documentation" ∨ strContains (strLower cause) "guide" then
          [{ type := "docs_update_suggestion"
             target := some "migration_guide"
             reason := some "Gap identified in migration documentation" }]
        else []
      (comm ++ [kb] ++ docs, "medium", true, "normal")
    else if confidence ≥ confidence_threshold_medium then
      let tick : ActionRec :=
        { type := "support_ticket_creation"
          priority := some "P2"
          reason := some "Pattern detected across multiple merchants"
          d_merchant_count := some total_merchants
          d_probable_cause := some cause
          d_confidence := some confidence }
      let alert : List ActionRec :=
        if total_merchants ≥ merchant_threshold_significant then
          [{ type := "internal_alert"
             channel := some "slack"
             target := some "#merchant-success"
             reason := some "Emerging issue pattern" }]
        else []
      (tick :: alert, "medium", true, "normal")
    else
      ([{ type := "monitoring_alert"
          reason := some "Low confidence - continue monitoring"
          d_pattern_count := some patterns.length
          d_suggested_action := some "Gather more data points" },
        { type := "human_review_request"
          reason := some "Insufficient confidence for automated action"
          d_confidence := some confidence
          d_unknowns := some reasoning.unknowns }],
       "low", false, "normal")
  let incident : ActionRec :=
    { type := "incident_report_draft"
      d_summary := some obs.summary
      d_root_cause := some cause
      d_confidence := some confidence
      d_impact_merchants := some total_merchants
      d_impact_severity := some branch.2.1 }
  { recommended_actions := branch.1 ++ [incident]
    requires_human_approval := branch.2.2.1
    risk_level := branch.2.1
    urgency := branch.2.2.2
    blast_radius := assessBlastRadius total_merchants has_checkout_impact
    estimated_impact := some
      { merchants_affected := total_merchants
        revenue_impact := if has_checkout_impact then "high" else "low"
        support_ticket_volume :=
          if total_merchants ≥ merchant_threshold_urgent then "high" else "medium" }
    reasoning_summary := some
      { primary_cause := some cause
        confidence := confidence
        key_evidence := primary_hyp.evidence } }

/-- `DecisionAgent._default_decision`. -/
def defaultDecision : Decision :=
  { recommended_actions :=
      [{ type := "manual_review"
         reason := some "Insufficient data for automated decision" }]
    requires_human_approval := true
    risk_level := "unknown"
    urgency := "normal"
    blast_radius := "unknown" }

/-- `DecisionAgent.decide` with `use_llm = False` (rule-based configuration):
a falsy primary hypothesis short-circuits to the default decision. -/
def decide (reasoning : HypothesisSet) (obs : Observation) : Decision :=
  match reasoning.primary_hypothesis with
  | none => defaultDecision
  | some h => decideWithRules h reasoning obs

/-- `DecisionAgent._validate_and_enhance_decision`: the safety re-validation
applied to an oracle-generated decision before it is returned.  The
`risk_level` of the appended incident report is read after the in-place
risk/urgency update, as in the source. -/
def validateAndEnhanceDecision (decision : Decision) (reasoning : HypothesisSet)
    (obs : Observation) : Decision :=
  let confidence := (reasoning.primary_hypothesis.map (·.confidence)).getD 0
  let patterns := obs.patterns
  let total_merchants := totalMerchants patterns
  let has_checkout_impact := hasCheckoutImpact patterns
  let d1 :=
    if has_checkout_impact ∨ total_merchants ≥ merchant_threshold_significant then
      { decision with requires_human_approval := true }
    else decision
  let d2 :=
    if has_checkout_impact ∧ confidence ≥ confidence_threshold_medium then
      { d1 with risk_level := "high", urgency := "urgent" }
    else d1
  let incident : ActionRec :=
    { type := "incident_report_draft"
      d_summary := some obs.summary
      d_root_cause := reasoning.primary_hypothesis.map (·.cause)
      d_confidence := some confidence
      d_impact_merchants := some total_merchants
      d_impact_severity := some d2.risk_level }
  { d2 with
    recommended_actions := d2.recommended_actions ++ [incident]
    estimated_impact := some
      { merchants_affected := total_merchants
        revenue_impact := if has_checkout_impact then "high" else "low"
        support_ticket_volume :=
          if total_merchants ≥ merchant_threshold_urgent then "high" else "medium" }
    blast_radius := assessBlastRadius total_merchants has_checkout_impact
    reasoning_summary := some
      { primary_cause := reasoning.primary_hypothesis.map (·.cause)
        confidence := confidence
        key_evidence := (reasoning.primary_hypothesis.map (·.evidence)).getD [] } }

end DecisionAgent

namespace EventStore

/-- The fields of a stored raw payload that `get_unprocessed` reads back out
of the JSON blob (`endpoint`, `occurrence_count`, `http_status`, with the
same defaults as the source's `.get` calls); no other key of the original
dict is consulted again. -/
structure RawPayload where
  endpoint : String := ""
  occurrence_count : Nat := 1
  http_status : Nat := 200
  deriving Repr, DecidableEq

/-- One row of the `events` table. -/
structure EventRow where
  id : Nat
  signal_id : Option String := none
  event_type : String
  merchant_id : String
  migration_stage : String
  error_code : Option String := none
  timestamp : String
  payload : RawPayload := {}
  source : String := "unknown"
  processed : Bool := false
  deriving Repr, DecidableEq

/-- The output of `EventStore._normalize_event`: every supported signal shape
(already-normalized, API error, support ticket, webhook failure, migration
update, fallback) is mapped onto this schema before the INSERT. -/
structure NormalizedEvent where
  event_type : String
  merchant_id : String
  migration_stage : String := "unknown"
  error_code : Option String := none
  timestamp : String
  source : String := "unknown"
  payload : RawPayload := {}
  deriving Repr, DecidableEq

/-- The `events` table together with its AUTOINCREMENT counter. -/
structure Store where
  rows : List EventRow := []
  nextId : Nat := 1
  deriving Repr, DecidableEq

/-- `EventStore.save`: attach the truthy `signal_id`, apply the metadata
`migration_stage` override, and unconditionally INSERT one new row with
`processed = 0`.  The `events` schema puts no uniqueness constraint on
`signal_id` and `save` performs no duplicate check. -/
def save (st : Store) (event : NormalizedEvent) (signal_id : Option String)
    (metadata_stage : Option String := none) : Store × Nat :=
  let sid : Option String :=
    match signal_id with
    | some s => if s = "" then none else some s
    | none => none
  let stage :=
    if event.migration_stage = "unknown" then
      match metadata_stage with
      | some s => if s = "" then event.migration_stage else s
      | none => event.migration_stage
    else event.migration_stage
  let row : EventRow :=
    { id := st.nextId
      signal_id := sid
      event_type := event.event_type
      merchant_id := event.merchant_id
      migration_stage := stage
      error_code := event.error_code
      timestamp := event.timestamp
      payload := event.payload
      source := event.source
      processed := false }
  ({ rows := st.rows ++ [row], nextId := st.nextId + 1 }, st.nextId)

/-- `SELECT ... WHERE processed = 0 ORDER BY timestamp ASC LIMIT ?` (stable
on equal timestamps). -/
def unprocessedRows (st : Store) (limit : Nat := 500) : List EventRow :=
  (sortBy (fun a b => strLe a.timestamp b.timestamp)
      (st.rows.filter (fun r => !r.processed))).take limit

/-- The dict shape `get_unprocessed` hands to the observer: a DB `NULL`
error code is the falsy value the observer skips (modelled `""`), and the
payload fields are re-exposed with their defaults. -/
def rowToEvent (r : EventRow) : ObserverAgent.Event :=
  { id := r.id
    event_type := r.event_type
    merchant_id := r.merchant_id
    migration_stage := r.migration_stage
    error_code := r.error_code.getD ""
    timestamp := r.timestamp
    first_seen := ""
    endpoint := r.payload.endpoint
    source := r.source
    occurrence_count := r.payload.occurrence_count
    http_status := r.payload.http_status }

/-- `EventStore.get_unprocessed`. -/
def get_unprocessed (st : Store) (limit : Nat := 500) : List ObserverAgent.Event :=
  (unprocessedRows st limit).map rowToEvent

/-- `EventStore.mark_processed`: `UPDATE events SET processed = 1 WHERE id IN
(...)` (no-op for an empty id list, as in the source). -/
def mark_processed (st : Store) (event_ids : List Nat) : Store :=
  if event_ids.isEmpty then st
  else
    { st with rows := st.rows.map fun r =>
        if event_ids.contains r.id then { r with processed := true } else r }

/-- The number of event rows carrying the given external signal id (the
observable for the ingestion-idempotence property). -/
def countSignal (st : Store) (sid : String) : Nat :=
  (st.rows.filter (fun r => r.signal_id = some sid)).length

end EventStore

namespace MemoryManager

/-- One row of the `incidents` table.  `observation_json`/`reasoning_json`
(and `action_taken`) hold JSON snapshots; the `json.dumps`/`json.loads`
round trip is modelled as the identity on the structured value. -/
structure IncidentRow where
  id : Nat
  signal_cluster : String
  root_cause : String
  confidence : ℚ
  action_taken : List DecisionAgent.ActionRec := []
  outcome : Option String := none
  observation_json : Option ObserverAgent.Observation := none
  reasoning_json : Option ReasoningAgent.HypothesisSet := none
  pattern_summary : String := ""
  deriving Repr, DecidableEq

/-- One row of the `pending_actions` table. -/
structure ActionRow where
  action_id : String
  incident_id : Option Nat := none
  action_type : String := "unknown"
  target : String := "general"
  content : Option String := none
  risk : Option String := none
  severity : Option String := none
  reasoning : Option String := none
  status : String := "pending"
  confidence : Option ℚ := none
  raw_payload : Option DecisionAgent.ActionRec := none
  reviewed_by : Option String := none
  reviewed_at : Option String := none
  feedback : Option String := none
  executed_at : Option String := none
  deriving Repr, DecidableEq

/-- One row of the `feedback` table (schema declared in `memory/init_db.py`). -/
structure FeedbackRow where
  id : Nat
  incident_id : Nat
  feedback_type : String
  corrected_cause : Option String := none
  reviewer : Option String := none
  notes : Option String := none
  deriving Repr, DecidableEq

/-- The database state owned by `MemoryManager`, with AUTOINCREMENT
counters. -/
structure Memory where
  incidents : List IncidentRow := []
  nextIncidentId : Nat := 1
  confidence_history : List (String × ℚ) := []
  actions : List ActionRow := []
  feedbackRows : List FeedbackRow := []
  nextFeedbackId : Nat := 1
  deriving Repr, DecidableEq

/-- `p.get("pattern_type", "unknown")` on an observer pattern dict. -/
def patternType : ObserverAgent.Pattern → String
  | .errorCluster .. => "error_cluster"
  | .migrationCorrelation .. => "migration_correlation"
  | .temporalSpike .. => "temporal_spike"

/-- The `pattern_summary` string built by `record_incident`. -/
def patternSummaryOf : Option ObserverAgent.Observation → String
  | some obs =>
      if obs.patterns.isEmpty then ""
      else
        let n := obs.patterns.length
        let types := String.intercalate ", " ((obs.patterns.take 3).map patternType)
        s!"{n} patterns detected: " ++ types
  | none => ""

/-- `MemoryManager.record_incident`: INSERT one incident row plus one
confidence-history row; returns the fresh incident id. -/
def record_incident (mem : Memory) (signal_cluster root_cause : String)
    (confidence : ℚ) (actions_taken : List DecisionAgent.ActionRec)
    (outcome : Option String := none)
    (observation : Option ObserverAgent.Observation := none)
    (reasoning : Option ReasoningAgent.HypothesisSet := none) : Memory × Nat :=
  let row : IncidentRow :=
    { id := mem.nextIncidentId
      signal_cluster := signal_cluster
      root_cause := root_cause
      confidence := confidence
      action_taken := actions_taken
      outcome := outcome
      observation_json := observation
      reasoning_json := reasoning
      pattern_summary := patternSummaryOf observation }
  ({ mem with
      incidents := mem.incidents ++ [row]
      nextIncidentId := mem.nextIncidentId + 1
      confidence_history := mem.confidence_history ++ [(signal_cluster, confidence)] },
   mem.nextIncidentId)

/-- `MemoryManager.get_incident`: `SELECT * FROM incidents WHERE id = ?`. -/
def get_incident (mem : Memory) (incident_id : Nat) : Option IncidentRow :=
  mem.incidents.find? (fun r => r.id = incident_id)

/-- `MemoryManager.get_action_by_id`. -/
def get_action_by_id (mem : Memory) (action_id : String) : Option ActionRow :=
  mem.actions.find? (fun r => r.action_id = action_id)

/-- `MemoryManager.get_pending_actions` (most recent first, modelled as the
reversed insertion order of `ORDER BY created_at DESC`). -/
def get_pending_actions (mem : Memory) (status_filter : Option String := none) :
    List ActionRow :=
  match status_filter with
  | some s => (mem.actions.filter (fun r => r.status = s)).reverse
  | none => mem.actions.reverse

/-- `MemoryManager.update_action_status`: an unconditional `UPDATE
pending_actions SET status, reviewed_by, feedback, reviewed_at WHERE
action_id = ?` — no read of the current status, no pending-only or
terminal-state guard, no compare-and-set. -/
def update_action_status (mem : Memory) (action_id status : String)
    (reviewer : Option String := none) (feedback : Option String := none)
    (now : String := "") : Memory :=
  { mem with
      actions := mem.actions.map fun r =>
        if r.action_id = action_id then
          { r with
              status := status
              reviewed_by := reviewer
              feedback := feedback
              reviewed_at := some now }
        else r }

/-- Python `target or "general"`. -/
def targetOrGeneral : Option String → String
  | some t => if t = "" then "general" else t
  | none => "general"

/-- `MemoryManager.create_pending_action`: `INSERT OR REPLACE` keyed by the
unique `action_id`, always with status `'pending'`. -/
def create_pending_action (mem : Memory) (action_id action_type : String)
    (target : Option String := none) (content : Option String := none)
    (confidence : Option ℚ := none)
    (raw_payload : Option DecisionAgent.ActionRec := none)
    (incident_id : Option Nat := none) (risk : Option String := none)
    (severity : Option String := none) (reasoning : Option String := none) :
    Memory × String :=
  let row : ActionRow :=
    { action_id := action_id
      incident_id := incident_id
      action_type := action_type
      target := targetOrGeneral target
      content := content
      risk := risk
      severity := severity
      reasoning := reasoning
      confidence := confidence
      raw_payload := raw_payload
      status := "pending" }
  ({ mem with
      actions := mem.actions.filter (fun r => r.action_id ≠ action_id) ++ [row] },
   action_id)

/-- Modelled from the spec: `MemoryManager.record_full_incident` is called by
`jobs/detect_incidents.py` but is not defined in the source tree.  Per the
spec an Incident is "Created once per detection cycle that yields at least
one Pattern", "the durable join of Observation + Hypothesis + Decision +
Action outcomes" with snapshots "copied at decision time": modelled as the
insertion of exactly one incident row carrying the snapshots, exactly as the
in-tree `record_incident` does; the extra `event_ids` argument has no column
in the `incidents` schema and is not persisted. -/
def record_full_incident (mem : Memory) (signal_cluster root_cause : String)
    (confidence : ℚ) (actions_taken : List DecisionAgent.ActionRec)
    (observation : ObserverAgent.Observation)
    (reasoning : ReasoningAgent.HypothesisSet)
    (event_ids : List Nat) : Memory × Nat :=
  let _ := event_ids
  record_incident mem signal_cluster root_cause confidence actions_taken none
    (some observation) (some reasoning)

/-- Modelled from the spec: `MemoryManager.add_pending_action` is called by
`jobs/detect_incidents.py` but is not defined in the source tree.  Per the
spec the Action Ledger "persists every candidate Action with lifecycle
state" and every Action is "created by the Decider as `pending`": modelled
as the keyed pending insert of the in-tree `create_pending_action`, which
takes the same arguments. -/
def add_pending_action (mem : Memory) (action_id action_type : String)
    (target : Option String) (content : Option String) (risk : Option String)
    (severity : Option String) (reasoning : Option String)
    (incident_id : Option Nat) (confidence : Option ℚ)
    (raw_payload : Option DecisionAgent.ActionRec) : Memory × String :=
  create_pending_action mem action_id action_type target content confidence
    raw_payload incident_id risk severity reasoning

/-- Modelled from the spec: `MemoryManager.add_feedback` is called by
`api/routes/incidents.py` but is not defined in the source tree.  Per the
spec, human Feedback (`correct|wrong_cause|partial`, corrected cause,
reviewer, notes) is attached to an incident, and the `feedback` table of
`memory/init_db.py` has exactly these columns: modelled as inserting one
feedback row, returning its fresh id. -/
def add_feedback (mem : Memory) (incident_id : Nat) (feedback_type : String)
    (corrected_cause : Option String := none) (reviewer : Option String := none)
    (notes : Option String := none) : Memory × Nat :=
  let row : FeedbackRow :=
    { id := mem.nextFeedbackId
      incident_id := incident_id
      feedback_type := feedback_type
      corrected_cause := corrected_cause
      reviewer := reviewer
      notes := notes }
  ({ mem with
      feedbackRows := mem.feedbackRows ++ [row]
      nextFeedbackId := mem.nextFeedbackId + 1 },
   mem.nextFeedbackId)

/-- Modelled from the spec: `MemoryManager.get_feedback_for_incident` backs
the "fetch incident by id with attached feedback" query of
`api/routes/incidents.py` but is not defined in the source tree: modelled as
the feedback rows recorded against that incident id. -/
def get_feedback_for_incident (mem : Memory) (incident_id : Nat) :
    List FeedbackRow :=
  mem.feedbackRows.filter (fun f => f.incident_id = incident_id)

end MemoryManager

namespace Actions

/-- One entry of the in-memory `_agent_state["proposed_actions"]` list
(`api/routes/agent.py`), restricted to the fields `_do_approve` reads or
writes. -/
structure StateAction where
  action_id : String
  action_type : Option String := none
  status : String := "pending"
  confidence : Option ℚ := none
  reviewed_by : Option String := none
  reviewed_at : Option String := none
  feedback : Option String := none
  deriving Repr, DecidableEq

/-- The result of `_find_action`: the action found in the in-memory agent
state (with its index, source `"memory"`) or in the database (source
`"db"`). -/
inductive FoundAction where
  | fromState (i : Nat) (a : StateAction)
  | fromDb (a : MemoryManager.ActionRow)
  deriving Repr, DecidableEq

/-- `actions._find_action`: the in-memory agent state is searched first,
then the `pending_actions` table. -/
def find_action (state : List StateAction) (mem : MemoryManager.Memory)
    (action_id : String) : Option FoundAction :=
  match state.findIdx? (fun a => a.action_id = action_id) with
  | some i => (state.get? i).map (.fromState i)
  | none => (MemoryManager.get_action_by_id mem action_id).map .fromDb

/-- `action.get("status", "pending")` on the found action. -/
def currentStatus : FoundAction → String
  | .fromState _ a => a.status
  | .fromDb a => a.status

/-- The FastAPI `HTTPException` raised by `_do_approve`: an HTTP status code
with a detail string. -/
structure HttpError where
  status_code : Nat
  detail : String
  deriving Repr, DecidableEq

/-- The successful outcome of `_do_approve`: the updated in-memory state and
database, plus the response fields. -/
structure ApproveOutcome where
  agent_actions : List StateAction
  memory : MemoryManager.Memory
  action_id : String
  status : String
  message : String
  execution : Option String := none
  deriving Repr, DecidableEq

/-- `feedback` is written into the in-memory entry only when truthy. -/
def feedbackUpdate (old new : Option String) : Option String :=
  match new with
  | some f => if f = "" then old else some f
  | none => old

/-- `actions._do_approve`: 404 when no action matches, 409 when the found
action's current status is not `pending`, otherwise the in-memory entry (when
found there) and the database row are moved to `approved`/`rejected`.  The
actor dispatch performed when `approved ∧ execute_if_approved` is an external
effect; its result envelope is passed in as `exec_result`. -/
def do_approve (state : List StateAction) (mem : MemoryManager.Memory)
    (action_id : String) (approved : Bool) (reviewer : Option String)
    (feedback : Option String) (now : String)
    (execute_if_approved : Bool := true) (exec_result : String := "") :
    Except HttpError ApproveOutcome :=
  match find_action state mem action_id with
  | none =>
      .error { status_code := 404, detail := s!"Action {action_id} not found" }
  | some fa =>
      let current_status := currentStatus fa
      if (strLower current_status) ≠ "pending" then
        .error { status_code := 409
                 detail := s!"Action {action_id} has already been {current_status}" }
      else
        let status_val := if approved then "approved" else "rejected"
        let state' :=
          match fa with
          | .fromState i _ =>
              state.mapIdx fun j a =>
                if j = i then
                  { a with
                      status := status_val
                      reviewed_by := reviewer
                      reviewed_at := some now
                      feedback := feedbackUpdate a.feedback feedback }
                else a
          | .fromDb _ => state
        let mem' := MemoryManager.update_action_status mem action_id status_val
          reviewer feedback now
        let verdict := if approved then "approved" else "rejected"
        .ok { agent_actions := state'
              memory := mem'
              action_id := action_id
              status := status_val
              message := s!"Action {verdict} successfully"
              execution :=
                if approved ∧ execute_if_approved then some exec_result else none }

end Actions

namespace DetectIncidents

/-- Python `f"{i:04d}"`. -/
def pad4 (i : Nat) : String :=
  let s := toString i
  if s.length ≥ 4 then s else String.mk (List.replicate (4 - s.length) '0') ++ s

/-- The result dict of `run_detect_incidents`. -/
structure JobResult where
  status : String
  events_processed : Nat
  patterns_detected : Nat
  actions_pending : Nat
  incident_id : Option Nat := none
  deriving Repr, DecidableEq

/-- The per-action store loop of `run_detect_incidents`: action ids
`ACT-{incident_id}-{i:04d}` with the `.get` defaults of the call site. -/
def storeActions (mem : MemoryManager.Memory) (incident_id : Nat)
    (actions : List DecisionAgent.ActionRec) (confidence : ℚ) :
    MemoryManager.Memory :=
  (actions.enum).foldl
    (fun acc ia =>
      let i := ia.1
      let action := ia.2
      let idStr := pad4 i
      (MemoryManager.add_pending_action acc s!"ACT-{incident_id}-{idStr}"
        action.type (some (action.target.getD "general")) (some "")
        (some "medium") none (some (action.reason.getD "")) (some incident_id)
        (some confidence) (some action)).1)
    mem

/-- `jobs/detect_incidents.run_detect_incidents` with the default
configuration (`batch_size = 500`, `use_llm = False`): fetch the unprocessed
batch, run the orchestrator's `run_with_approval`
(observe with `spike_threshold = 2` → reason → decide), record one incident
and its pending actions when patterns were found, then mark the batch
processed.  The `update_agent_state` call touches only the in-process API
state dict and no persisted store. -/
def run_detect_incidents (st : EventStore.Store) (mem : MemoryManager.Memory)
    (batch_size : Nat := 500) :
    EventStore.Store × MemoryManager.Memory × JobResult :=
  let events := EventStore.get_unprocessed st batch_size
  if events.isEmpty then
    (st, mem,
     { status := "idle", events_processed := 0, patterns_detected := 0
       actions_pending := 0 })
  else
    let observation := ObserverAgent.observe 2 events
    let reasoning := ReasoningAgent.reason observation
    let decision := DecisionAgent.decide reasoning observation
    let patterns := observation.patterns
    let event_ids := (events.map (·.id)).filter (· ≠ 0)
    let memAndId : MemoryManager.Memory × Option Nat :=
      if patterns.isEmpty then (mem, none)
      else
        let primary := reasoning.primary_hypothesis
        let root_cause := (primary.map (·.cause)).getD "Unknown"
        let confidence := (primary.map (·.confidence)).getD 0
        let step := MemoryManager.record_full_incident mem observation.summary
          root_cause confidence [] observation reasoning event_ids
        (storeActions step.1 step.2 decision.recommended_actions confidence,
         some step.2)
    let st' := EventStore.mark_processed st event_ids
    let pending_count :=
      (MemoryManager.get_pending_actions memAndId.1 (some "pending")).length
    (st', memAndId.1,
     { status := "completed"
       events_processed := events.length
       patterns_detected := patterns.length
       actions_pending := pending_count
       incident_id := memAndId.2 })

end DetectIncidents

namespace Incidents

/-- The response of the incident-details endpoint: the incident row plus the
attached feedback rows. -/
structure IncidentWithFeedback where
  incident : MemoryManager.IncidentRow
  feedback : List MemoryManager.FeedbackRow
  deriving Repr, DecidableEq

/-- `api/routes/incidents.get_incident`: 404 for an unknown id, otherwise the
incident together with its feedback. -/
def get_incident_route (mem : MemoryManager.Memory) (incident_id : Nat) :
    Except Actions.HttpError IncidentWithFeedback :=
  match MemoryManager.get_incident mem incident_id with
  | none =>
      .error { status_code := 404, detail := s!"Incident {incident_id} not found" }
  | some inc =>
      .ok { incident := inc
            feedback := MemoryManager.get_feedback_for_incident mem incident_id }

end Incidents

namespace Signals

/-- `api/routes/signals.ingest_signals`: each signal of the batch is saved
with a signal id freshly generated by `uuid.uuid4()` (modelled by the
explicit `signal_ids` list, zipped positionally); the route performs no
duplicate detection of any kind. -/
def ingest_signals (st : EventStore.Store)
    (signals : List EventStore.NormalizedEvent) (signal_ids : List String) :
    EventStore.Store × List String :=
  (signals.zip signal_ids).foldl
    (fun acc p => ((EventStore.save acc.1 p.1 (some p.2)).1, acc.2 ++ [p.2]))
    (st, [])

end Signals

/-- All primary keys of the `events` table are positive (`AUTOINCREMENT`
starts at 1; the detection job drops falsy ids). -/
def EventStore.Store.idsPositive (st : EventStore.Store) : Prop :=
  ∀ r ∈ st.rows, r.id ≠ 0

/-- All incident ids are below the AUTOINCREMENT counter (true of every store
produced by `record_incident` from an empty database). -/
def MemoryManager.Memory.incidentIdsBounded (mem : MemoryManager.Memory) : Prop :=
  ∀ r ∈ mem.incidents, r.id < mem.nextIncidentId

-- Concrete inputs used by counterexamples and witnesses. --

/-- A checkout-coded error-cluster pattern affecting four merchants. -/
def exCheckoutPattern : ObserverAgent.Pattern :=
  .errorCluster "CHECKOUT_502" 4 6 ["/v3/checkout"] ["api"]
    "2026-02-01T00:00:00Z" "medium"

/-- An observation whose only pattern is the checkout cluster. -/
def exCheckoutObs : ObserverAgent.Observation :=
  { patterns := [exCheckoutPattern]
    raw_event_count := 6
    severity_breakdown := { high := 6 }
    summary := "1 patterns detected across 6 events" }

/-- A low-confidence primary hypothesis (the heuristic fallback value 0.40). -/
def exLowHyp : ReasoningAgent.Hypothesis :=
  { cause := "Requires manual investigation"
    confidence := mkRat 40 100
    reasoning := "Patterns detected but no clear root cause identified" }

/-- A hypothesis set wrapping the low-confidence hypothesis. -/
def exLowReasoning : ReasoningAgent.HypothesisSet :=
  { primary_hypothesis := some exLowHyp
    alternative_hypotheses := []
    unknowns := ["Merchant implementation details not available"] }

/-- A single event with no error code, no stage and no timestamp: the
zero-pattern scenario of the spec. -/
def exBareEvent : ObserverAgent.Event := { merchant_id := "m_1" }

/-- The observation of the single bare event. -/
def exBareObs : ObserverAgent.Observation := ObserverAgent.observe 3 [exBareEvent]

/-- A single event carrying a timestamp (and nothing else reportable). -/
def exTimedEvent : ObserverAgent.Event :=
  { merchant_id := "m_1", timestamp := "2026-02-01T00:00:00Z" }

/-- An observation with both a migration correlation and a webhook error
cluster (the dual-pattern heuristic scenario). -/
def exDualObs : ObserverAgent.Observation :=
  { patterns :=
      [.errorCluster "WEBHOOK_404" 4 10 ["/webhooks"] ["api"]
         "2026-02-01T00:00:00Z" "medium",
       .migrationCorrelation "post_migration" 4 [("WEBHOOK_404", 10)] "high"]
    raw_event_count := 10
    severity_breakdown := { medium := 10 }
    summary := "2 patterns detected across 10 events" }

/-- A normalized API-error signal used by the ingestion examples. -/
def exSignal : EventStore.NormalizedEvent :=
  { event_type := "api_error"
    merchant_id := "m_7"
    migration_stage := "post_migration"
    error_code := some "API_500"
    timestamp := "2026-02-01T00:00:00Z"
    source := "api" }

/-- A ledger with one rejected and one executed action. -/
def exLedger : MemoryManager.Memory :=
  { actions :=
      [{ action_id := "ACT-1-0000", action_type := "internal_alert"
         status := "rejected" },
       { action_id := "ACT-1-0001", action_type := "engineering_escalation"
         status := "executed" }] }

/-- Two unprocessed webhook-error events from distinct merchants: with the
job's spike threshold of 2 they form an error cluster. -/
def exJobStore : EventStore.Store :=
  { rows :=
      [{ id := 1, event_type := "api_error", merchant_id := "m_1"
         migration_stage := "unknown", error_code := some "WEBHOOK_503"
         timestamp := "2026-02-01T00:00:01Z", source := "api" },
       { id := 2, event_type := "api_error", merchant_id := "m_2"
         migration_stage := "unknown", error_code := some "WEBHOOK_503"
         timestamp := "2026-02-01T00:00:02Z", source := "api" }]
    nextId := 3 }

/-- Two events from distinct merchants sharing one error code. -/
def exClusterEvents : List ObserverAgent.Event :=
  [{ merchant_id := "m_1", error_code := "X_500", timestamp := "t1" },
   { merchant_id := "m_2", error_code := "X_500", timestamp := "t2" }]

/-- The memory after recording one incident into an empty database. -/
def exRecordedMem : MemoryManager.Memory :=
  (MemoryManager.record_incident {} "cluster" "Webhook endpoint misconfiguration"
    (mkRat 70 100) [] none (some exDualObs) none).1

/-- The memory after attaching one feedback row to that incident. -/
def exFeedbackMem : MemoryManager.Memory :=
  (MemoryManager.add_feedback exRecordedMem 1 "correct" none (some "ops") none).1

/-- The outcome of one detection cycle on the two-event store. -/
def exJobOut : EventStore.Store × MemoryManager.Memory × DetectIncidents.JobResult :=
  DetectIncidents.run_detect_incidents exJobStore {} 500

-- General helper lemmas. --

/-- Emptiness of a filtered map, phrased through `List.any`. -/
theorem isEmpty_filter_map {α β : Type} (f : α → β) (p : β → Bool) (l : List α) :
    ((l.map f).filter p).isEmpty = !(l.any fun a => p (f a)) := by
  induction l with
  | nil => rfl
  | cons a l ih =>
      by_cases h : p (f a) <;>
        simp [List.filter_cons, List.any_cons, h, ih]

/-- Membership in the error-cluster detector forces the error-cluster shape
with the detector's own counts and severity. -/
theorem mem_detectErrorClusters {k : Nat} {events : List ObserverAgent.Event}
    {p : ObserverAgent.Pattern}
    (hp : p ∈ ObserverAgent.detectErrorClusters k events) :
    ∃ code, k ≤ ObserverAgent.merchantCount events code ∧
      p = .errorCluster code (ObserverAgent.merchantCount events code)
            (ObserverAgent.occurrenceTotal events code)
            (ObserverAgent.distinctVals (·.endpoint) (ObserverAgent.eventsWithCode events code))
            (ObserverAgent.distinctVals (·.source) (ObserverAgent.eventsWithCode events code))
            (ObserverAgent.firstSeen events code)
            (if 5 ≤ ObserverAgent.merchantCount events code then "high" else "medium") := by
  simp only [ObserverAgent.detectErrorClusters, List.mem_filterMap] at hp
  obtain ⟨code, -, heq⟩ := hp
  refine ⟨code, ?_⟩
  split at heq
  · exact ⟨by assumption, (Option.some.inj heq).symm⟩
  · cases heq

/-- Patterns produced by the migration-correlation detector are
migration-correlation patterns. -/
theorem mem_detectMigrationCorrelation {events : List ObserverAgent.Event}
    {p : ObserverAgent.Pattern}
    (hp : p ∈ ObserverAgent.detectMigrationCorrelation events) :
    ∃ stage m tops sev, p = .migrationCorrelation stage m tops sev := by
  simp only [ObserverAgent.detectMigrationCorrelation, List.mem_filterMap] at hp
  obtain ⟨stage, -, heq⟩ := hp
  split at heq
  · cases heq
  · split at heq
    · exact ⟨stage, _, _, _, (Option.some.inj heq).symm⟩
    · cases heq

/-- Patterns produced by the temporal-spike detector are temporal spikes. -/
theorem mem_detectTemporalSpikes {events : List ObserverAgent.Event}
    {p : ObserverAgent.Pattern}
    (hp : p ∈ ObserverAgent.detectTemporalSpikes events) :
    ∃ tw n sev, p = .temporalSpike tw n sev := by
  simp only [ObserverAgent.detectTemporalSpikes] at hp
  split_ifs at hp <;>
    first
      | (rw [List.mem_singleton] at hp; exact ⟨_, _, _, hp⟩)
      | cases hp

-- C2 --

/-- C2 (corrected): on the zero-pattern input (a single event with no error
code, no stage, no timestamp) the Observation has zero patterns and the
Reasoner returns the sentinel — but the Decider returns the default decision
with `requires_human_approval = true` and the single `manual_review` action,
not the low-confidence branch (`requires_human_approval = false` with
human_review/monitoring/incident_report) asserted by the claim. -/
theorem C2_counterexample :
    exBareObs.patterns = []
    ∧ (ReasoningAgent.reason exBareObs).primary_hypothesis = none
    ∧ (ReasoningAgent.reason exBareObs).unknowns = ["Insufficient data for analysis"]
    ∧ (DecisionAgent.decide (ReasoningAgent.reason exBareObs) exBareObs).requires_human_approval
        = true
    ∧ ((DecisionAgent.decide (ReasoningAgent.reason exBareObs) exBareObs).recommended_actions.map
        (·.type)) = ["manual_review"] := by
  decide

/-- C2 (amended): for every Observation with zero patterns the Reasoner does
return the sentinel HypothesisSet (primary null, insufficient-data unknowns)
without raising — and the Decider then returns the default decision:
`requires_human_approval = true` with exactly one `manual_review` action. -/
theorem C2_sentinel_then_default (obs : ObserverAgent.Observation)
    (hp : obs.patterns = []) :
    ReasoningAgent.reason obs = ReasoningAgent.sentinelHypothesisSet
    ∧ DecisionAgent.decide (ReasoningAgent.reason obs) obs = DecisionAgent.defaultDecision
    ∧ (DecisionAgent.decide (ReasoningAgent.reason obs) obs).requires_human_approval = true
    ∧ ((DecisionAgent.decide (ReasoningAgent.reason obs) obs).recommended_actions.map
        (·.type)) = ["manual_review"] := by
  have h1 : ReasoningAgent.reason obs = ReasoningAgent.sentinelHypothesisSet := by
    simp [ReasoningAgent.reason, hp]
  refine ⟨h1, ?_, ?_, ?_⟩ <;> rw [h1] <;> rfl

/-- C2 witness: the amended statement evaluated on the single bare event. -/
theorem C2_witness :
    ReasoningAgent.reason exBareObs = ReasoningAgent.sentinelHypothesisSet
    ∧ DecisionAgent.decide (ReasoningAgent.reason exBareObs) exBareObs
        = DecisionAgent.defaultDecision
    ∧ (DecisionAgent.decide (ReasoningAgent.reason exBareObs) exBareObs).requires_human_approval
        = true
    ∧ ((DecisionAgent.decide (ReasoningAgent.reason exBareObs) exBareObs).recommended_actions.map
        (·.type)) = ["manual_review"] :=
  C2_sentinel_then_default exBareObs (by decide)

-- C1 --

/-- C1 (corrected): with checkout impact present in the patterns, at least 3
affected subjects, and a primary confidence of 0.40, the rule-based
`decide` path returns `requires_human_approval = false` — the claimed
unconditional forcing does not hold on the rule-based path. -/
theorem C1_counterexample :
    DecisionAgent.hasCheckoutImpact exCheckoutObs.patterns = true
    ∧ DecisionAgent.merchant_threshold_significant
        ≤ DecisionAgent.totalMerchants exCheckoutObs.patterns
    ∧ (DecisionAgent.decide exLowReasoning exCheckoutObs).requires_human_approval = false := by
  decide

/-- C1 (amended): the safety forcing is unconditional only in the
oracle-assisted path — `_validate_and_enhance_decision` sets
`requires_human_approval = true` whenever checkout/payment impact is present
or the affected-subject count reaches the significant threshold (3), for
every confidence and every incoming decision.  The rule-based path performs
no such re-validation: there `requires_human_approval` holds exactly when the
confidence is at least the medium threshold 0.50, so low-confidence
checkout-impacting decisions do not require approval. -/
theorem C1_safety_forcing (d : DecisionAgent.Decision)
    (rs : ReasoningAgent.HypothesisSet) (obs : ObserverAgent.Observation)
    (himp : DecisionAgent.hasCheckoutImpact obs.patterns = true
            ∨ DecisionAgent.merchant_threshold_significant
                ≤ DecisionAgent.totalMerchants obs.patterns) :
    (DecisionAgent.validateAndEnhanceDecision d rs obs).requires_human_approval = true
    ∧ ∀ h : ReasoningAgent.Hypothesis,
        (DecisionAgent.decideWithRules h rs obs).requires_human_approval
          = decide (DecisionAgent.confidence_threshold_medium ≤ h.confidence) := by
  constructor
  · have hcond : DecisionAgent.hasCheckoutImpact obs.patterns = true
        ∨ DecisionAgent.totalMerchants obs.patterns
            ≥ DecisionAgent.merchant_threshold_significant := himp
    simp only [DecisionAgent.validateAndEnhanceDecision, if_pos hcond]
    split_ifs <;> rfl
  · intro h
    by_cases hmed : DecisionAgent.confidence_threshold_medium ≤ h.confidence
    · rw [decide_eq_true hmed]
      simp only [DecisionAgent.decideWithRules]
      split_ifs <;> rfl
    · rw [decide_eq_false hmed]
      simp only [DecisionAgent.decideWithRules]
      have h1 : ¬ (DecisionAgent.hasCheckoutImpact obs.patterns = true
          ∧ h.confidence ≥ DecisionAgent.confidence_threshold_medium) :=
        fun hc => hmed hc.2
      have h2 : ¬ h.confidence ≥ DecisionAgent.confidence_threshold_high :=
        fun hc => hmed (le_trans
          (by norm_num [DecisionAgent.confidence_threshold_medium,
            DecisionAgent.confidence_threshold_high, Rat.mkRat_eq_div]) hc)
      rw [if_neg h1, if_neg h2, if_neg hmed]

/-- C1 witness: the amended statement evaluated on the checkout-cluster
observation with the 0.40-confidence hypothesis. -/
theorem C1_witness :
    (DecisionAgent.validateAndEnhanceDecision DecisionAgent.defaultDecision
        exLowReasoning exCheckoutObs).requires_human_approval = true
    ∧ (DecisionAgent.decideWithRules exLowHyp exLowReasoning exCheckoutObs).requires_human_approval
        = decide (DecisionAgent.confidence_threshold_medium ≤ exLowHyp.confidence) := by
  have h := C1_safety_forcing DecisionAgent.defaultDecision exLowReasoning exCheckoutObs
    (Or.inl (by decide))
  exact ⟨h.1, h.2 exLowHyp⟩

-- C3 --

/-- C3 (corrected): ingesting the same external signal id twice does NOT
produce exactly one Event — after two ingestions with id `SIG-AAA` the event
table holds two rows with that signal id, not one. -/
theorem C3_counterexample :
    EventStore.countSignal
      (Signals.ingest_signals
        (Signals.ingest_signals {} [exSignal] ["SIG-AAA"]).1 [exSignal] ["SIG-AAA"]).1
      "SIG-AAA" = 2
    ∧ ¬ EventStore.countSignal
        (Signals.ingest_signals
          (Signals.ingest_signals {} [exSignal] ["SIG-AAA"]).1 [exSignal] ["SIG-AAA"]).1
        "SIG-AAA" = 1 := by
  decide

/-- C3 (amended): ingestion is not idempotent in the signal id — each
ingestion unconditionally inserts one fresh Event row (`EventStore.save` has
no duplicate check and the schema has no uniqueness constraint on
`signal_id`), so ingesting the same signal id twice adds exactly two rows
carrying that id. -/
theorem C3_duplicate_rows (st : EventStore.Store)
    (e1 e2 : EventStore.NormalizedEvent) (sid : String) (hsid : sid ≠ "") :
    EventStore.countSignal
      (Signals.ingest_signals (Signals.ingest_signals st [e1] [sid]).1 [e2] [sid]).1 sid
      = EventStore.countSignal st sid + 2 := by
  simp [Signals.ingest_signals, EventStore.save, EventStore.countSignal,
    List.filter_append, hsid]

/-- C3 witness: the amended statement evaluated on the empty store. -/
theorem C3_witness :
    EventStore.countSignal
      (Signals.ingest_signals
        (Signals.ingest_signals {} [exSignal] ["SIG-AAA"]).1 [exSignal] ["SIG-AAA"]).1
      "SIG-AAA"
      = EventStore.countSignal ({} : EventStore.Store) "SIG-AAA" + 2 :=
  C3_duplicate_rows {} exSignal exSignal "SIG-AAA" (by decide)

-- C10 --

/-- C10 (confirmed): `MemoryManager.update_action_status` unconditionally
overwrites status, reviewed_by, feedback and reviewed_at of every row with
the matching `action_id` — whatever that row's current status (including
`rejected`, `executed`, `failed`), with no pending-only guard and no
compare-and-set — and leaves every other row untouched. -/
theorem C10_unconditional_overwrite (mem : MemoryManager.Memory)
    (r : MemoryManager.ActionRow) (hr : r ∈ mem.actions) (aid stat : String)
    (reviewer feedback : Option String) (now : String) :
    (r.action_id = aid →
      { r with status := stat, reviewed_by := reviewer, feedback := feedback,
               reviewed_at := some now }
        ∈ (MemoryManager.update_action_status mem aid stat reviewer feedback now).actions)
    ∧ (r.action_id ≠ aid →
      r ∈ (MemoryManager.update_action_status mem aid stat reviewer feedback now).actions) := by
  constructor
  · intro hid
    unfold MemoryManager.update_action_status
    simp only [List.mem_map]
    exact ⟨r, hr, by simp [hid]⟩
  · intro hid
    unfold MemoryManager.update_action_status
    simp only [List.mem_map]
    exact ⟨r, hr, by simp [hid]⟩

/-- C10 witness: an `executed` action is silently reset to `pending` at the
ledger layer. -/
theorem C10_witness :
    ({ action_id := "ACT-1-0001", action_type := "engineering_escalation",
       status := "pending", reviewed_by := some "ops",
       reviewed_at := some "2026-02-02T00:00:00Z" } : MemoryManager.ActionRow)
      ∈ (MemoryManager.update_action_status exLedger "ACT-1-0001" "pending"
          (some "ops") none "2026-02-02T00:00:00Z").actions := by
  have h := C10_unconditional_overwrite exLedger
    { action_id := "ACT-1-0001", action_type := "engineering_escalation",
      status := "executed" }
    (by decide) "ACT-1-0001" "pending" (some "ops") none "2026-02-02T00:00:00Z"
  exact h.1 rfl

-- C5 --

/-- C5 (confirmed): the approval route rejects a request for an unknown
action id with 404 and a request against a non-pending action with 409 (a
distinct code), and a request can only succeed when the found action's
current status is `pending`. -/
theorem C5_lifecycle_conflict (state : List Actions.StateAction)
    (mem : MemoryManager.Memory) (aid : String) (approved : Bool)
    (reviewer feedback : Option String) (now : String) (execFlag : Bool)
    (er : String) :
    (Actions.find_action state mem aid = none →
       Actions.do_approve state mem aid approved reviewer feedback now execFlag er
         = Except.error { status_code := 404, detail := s!"Action {aid} not found" })
    ∧ (∀ fa, Actions.find_action state mem aid = some fa →
        (strLower (Actions.currentStatus fa)) ≠ "pending" →
        Actions.do_approve state mem aid approved reviewer feedback now execFlag er
          = Except.error { status_code := 409,
                           detail := s!"Action {aid} has already been {Actions.currentStatus fa}" })
    ∧ (∀ out, Actions.do_approve state mem aid approved reviewer feedback now execFlag er
          = Except.ok out →
        ∃ fa, Actions.find_action state mem aid = some fa
          ∧ (strLower (Actions.currentStatus fa)) = "pending")
    ∧ (404 : Nat) ≠ 409 := by
  refine ⟨fun hnone => ?_, fun fa hfa hst => ?_, fun out hout => ?_, by decide⟩
  · simp only [Actions.do_approve, hnone]
  · simp only [Actions.do_approve, hfa, if_pos hst]
  · unfold Actions.do_approve at hout
    revert hout
    cases hfind : Actions.find_action state mem aid with
    | none =>
        intro hout
        simp at hout
    | some fa =>
        intro hout
        by_cases hpend : (strLower (Actions.currentStatus fa)) = "pending"
        · exact ⟨fa, rfl, hpend⟩
        · simp [hpend] at hout

/-- C5 witness: a rejected action yields 409 on re-approval; an unknown id
yields 404. -/
theorem C5_witness :
    Actions.do_approve [] exLedger "ACT-1-0000" true none none "T" true ""
      = Except.error { status_code := 409,
                       detail := "Action ACT-1-0000 has already been rejected" }
    ∧ Actions.do_approve [] exLedger "missing" true none none "T" true ""
      = Except.error { status_code := 404, detail := "Action missing not found" } := by
  constructor
  · have h := C5_lifecycle_conflict [] exLedger "ACT-1-0000" true none none "T" true ""
    have h409 := h.2.1
      (.fromDb { action_id := "ACT-1-0000", action_type := "internal_alert",
                 status := "rejected" })
      (by decide) (by decide)
    exact h409
  · have h := C5_lifecycle_conflict [] exLedger "missing" true none none "T" true ""
    exact h.1 (by decide)

-- C6 --

/-- C6 (corrected): a batch of a single timestamped event — volume 1, far
below 10 — already makes the Observer emit a temporal_spike pattern
(severity medium), contradicting the claim that no temporal_spike is emitted
at volume ≤ 10. -/
theorem C6_counterexample :
    (ObserverAgent.observe 3 [exTimedEvent]).patterns
      = [ObserverAgent.Pattern.temporalSpike "last_2_hours" 1 "medium"]
    ∧ (1 : Nat) ≤ 10 := by
  decide

/-- C6 (amended): the Observer emits exactly one temporal_spike for every
batch containing at least one (truthy) timestamp, regardless of volume; the
volume-exceeds-10 threshold selects only the severity (high when the batch
has more than 10 events, else medium).  Every temporal_spike in an
observation comes from this detector. -/
theorem C6_spike_always (k : Nat) (events : List ObserverAgent.Event) :
    (ObserverAgent.detectTemporalSpikes events
      = if events.any (fun e => ObserverAgent.eventTimestamp e ≠ "") then
          [ObserverAgent.Pattern.temporalSpike "last_2_hours" events.length
            (if events.length > 10 then "high" else "medium")]
        else [])
    ∧ ∀ tw n sev,
        ObserverAgent.Pattern.temporalSpike tw n sev
            ∈ (ObserverAgent.observe k events).patterns →
          ObserverAgent.Pattern.temporalSpike tw n sev
            ∈ ObserverAgent.detectTemporalSpikes events := by
  constructor
  · simp only [ObserverAgent.detectTemporalSpikes]
    rw [isEmpty_filter_map ObserverAgent.eventTimestamp (fun t => t ≠ "") events]
    cases ha : events.any (fun e => ObserverAgent.eventTimestamp e ≠ "")
    · simp [ha]
    · have hne : events.isEmpty = false := by
        cases events with
        | nil => simp at ha
        | cons e es => rfl
      simp [ha, hne]
  · intro tw n sev hmem
    unfold ObserverAgent.observe at hmem
    split_ifs at hmem
    · simp at hmem
    · simp only [] at hmem
      rcases List.mem_append.mp hmem with h | h
      · rcases List.mem_append.mp h with h | h
        · obtain ⟨code, -, heq⟩ := mem_detectErrorClusters h
          simp at heq
        · obtain ⟨stage, m, tops, sev', heq⟩ := mem_detectMigrationCorrelation h
          simp at heq
      · exact h

-- C7 --

/-- C7 (confirmed): in heuristic mode the Reasoner is deterministic with
fixed rule-bound confidences: a stage-correlation (the source's
`migration_correlation`) together with an error cluster gives
"Migration configuration mismatch" at 0.75; an error cluster alone selects
the cause by keyword of the first cluster's error code — WEBHOOK 0.70,
PAYMENT/CHECKOUT 0.72, AUTH 0.68, generic 0.60; with neither pattern kind the
cause is "Requires manual investigation" at 0.40. -/
theorem C7_heuristic_table (obs : ObserverAgent.Observation)
    (hne : obs.patterns ≠ []) :
    (obs.patterns.any ReasoningAgent.isMigrationCorrelation = true →
     obs.patterns.any ReasoningAgent.isErrorCluster = true →
      (ReasoningAgent.reason obs).primary_hypothesis.map
          (fun h => (h.cause, h.confidence))
        = some ("Migration configuration mismatch", mkRat 75 100))
    ∧ (obs.patterns.any ReasoningAgent.isMigrationCorrelation = false →
       obs.patterns.any ReasoningAgent.isErrorCluster = true →
      (ReasoningAgent.reason obs).primary_hypothesis.map
          (fun h => (h.cause, h.confidence))
        = some (
            if strContains ((ReasoningAgent.clusterCodes obs.patterns).headD "UNKNOWN")
                "WEBHOOK" then
              ("Webhook endpoint misconfiguration", mkRat 70 100)
            else if strContains ((ReasoningAgent.clusterCodes obs.patterns).headD "UNKNOWN")
                "PAYMENT"
              ∨ strContains ((ReasoningAgent.clusterCodes obs.patterns).headD "UNKNOWN")
                "CHECKOUT" then
              ("Checkout/Payment flow breaking change", mkRat 72 100)
            else if strContains ((ReasoningAgent.clusterCodes obs.patterns).headD "UNKNOWN")
                "AUTH" then
              ("API authentication version mismatch", mkRat 68 100)
            else ("API compatibility issue", mkRat 60 100)))
    ∧ (obs.patterns.any ReasoningAgent.isMigrationCorrelation = false →
       obs.patterns.any ReasoningAgent.isErrorCluster = false →
      (ReasoningAgent.reason obs).primary_hypothesis.map
          (fun h => (h.cause, h.confidence))
        = some ("Requires manual investigation", mkRat 40 100)) := by
  have hr : ReasoningAgent.reason obs = ReasoningAgent.reasonWithHeuristics obs := by
    have : obs.patterns.isEmpty = false := by
      cases hp : obs.patterns with
      | nil => exact absurd hp hne
      | cons a l => rfl
    simp [ReasoningAgent.reason, this]
  refine ⟨fun hmig hclu => ?_, fun hmig hclu => ?_, fun hmig hclu => ?_⟩ <;>
    rw [hr] <;>
    simp only [ReasoningAgent.reasonWithHeuristics, hmig, hclu] <;>
    split_ifs <;>
    simp_all

-- C8 --

/-- C8 (confirmed): the Observer never emits an error_cluster for a code
shared by fewer than `spike_threshold` distinct subjects, and every emitted
error_cluster carries the distinct-subject count of its code, meets the
threshold, and has severity high exactly when that count is at least 5, else
medium. -/
theorem C8_cluster_threshold (k : Nat) (events : List ObserverAgent.Event) :
    (∀ code m occ eps srcs fs sev,
        ObserverAgent.Pattern.errorCluster code m occ eps srcs fs sev
            ∈ (ObserverAgent.observe k events).patterns →
          m = ObserverAgent.merchantCount events code ∧ k ≤ m
            ∧ sev = (if 5 ≤ m then "high" else "medium"))
    ∧ (∀ code, ObserverAgent.merchantCount events code < k →
        ∀ m occ eps srcs fs sev,
          ObserverAgent.Pattern.errorCluster code m occ eps srcs fs sev
            ∉ (ObserverAgent.observe k events).patterns) := by
  have key : ∀ code m occ eps srcs fs sev,
      ObserverAgent.Pattern.errorCluster code m occ eps srcs fs sev
          ∈ (ObserverAgent.observe k events).patterns →
        m = ObserverAgent.merchantCount events code ∧ k ≤ m
          ∧ sev = (if 5 ≤ m then "high" else "medium") := by
    intro code m occ eps srcs fs sev hmem
    unfold ObserverAgent.observe at hmem
    split_ifs at hmem
    · simp at hmem
    · simp only [] at hmem
      rcases List.mem_append.mp hmem with h | h
      · rcases List.mem_append.mp h with h | h
        · obtain ⟨code', hk, heq⟩ := mem_detectErrorClusters h
          rw [ObserverAgent.Pattern.errorCluster.injEq] at heq
          obtain ⟨rfl, hm, -, -, -, -, hsev⟩ := heq
          refine ⟨hm, hm ▸ hk, ?_⟩
          rw [hm]
          exact hsev
        · obtain ⟨stage, m', tops, sev', heq⟩ := mem_detectMigrationCorrelation h
          simp at heq
      · obtain ⟨tw, n, sev', heq⟩ := mem_detectTemporalSpikes h
        simp at heq
  refine ⟨key, fun code hlt m occ eps srcs fs sev hmem => ?_⟩
  obtain ⟨hm, hk, -⟩ := key code m occ eps srcs fs sev hmem
  subst hm
  exact absurd hk (Nat.not_le.mpr hlt)

/-- C8 witness: with threshold 3 the two-merchant cluster is suppressed; with
threshold 2 the emitted cluster reports 2 subjects and severity medium. -/
theorem C8_witness :
    (ObserverAgent.Pattern.errorCluster "X_500" 2 2 [""] ["unknown"] "t1" "medium"
        ∉ (ObserverAgent.observe 3 exClusterEvents).patterns)
    ∧ (2 = ObserverAgent.merchantCount exClusterEvents "X_500" ∧ 2 ≤ 2
        ∧ "medium" = (if 5 ≤ 2 then "high" else "medium")) := by
  constructor
  · exact (C8_cluster_threshold 3 exClusterEvents).2 "X_500" (by decide)
      2 2 [""] ["unknown"] "t1" "medium"
  · exact (C8_cluster_threshold 2 exClusterEvents).1 "X_500"
      2 2 [""] ["unknown"] "t1" "medium" (by decide)

-- C9 --

/-- Finding in an appended list when the first part has no match. -/
theorem find?_append_of_none {α : Type} (l₁ l₂ : List α) (p : α → Bool)
    (h : l₁.find? p = none) : (l₁ ++ l₂).find? p = l₂.find? p := by
  rw [List.find?_append, h, Option.none_or]

/-- A freshly recorded incident is found again by its id, exactly as
inserted. -/
theorem get_incident_record (mem : MemoryManager.Memory)
    (hwf : mem.incidentIdsBounded) (sc rc : String) (conf : ℚ)
    (acts : List DecisionAgent.ActionRec) (outcome : Option String)
    (obsOpt : Option ObserverAgent.Observation)
    (rsn : Option ReasoningAgent.HypothesisSet) :
    MemoryManager.get_incident
        (MemoryManager.record_incident mem sc rc conf acts outcome obsOpt rsn).1
        (MemoryManager.record_incident mem sc rc conf acts outcome obsOpt rsn).2
      = some { id := mem.nextIncidentId, signal_cluster := sc, root_cause := rc,
               confidence := conf, action_taken := acts, outcome := outcome,
               observation_json := obsOpt, reasoning_json := rsn,
               pattern_summary := MemoryManager.patternSummaryOf obsOpt } := by
  simp only [MemoryManager.record_incident, MemoryManager.get_incident]
  rw [find?_append_of_none]
  · simp
  · rw [List.find?_eq_none]
    intro x hx
    simp only [decide_eq_true_eq]
    exact Nat.ne_of_lt (hwf x hx)

/-- `add_feedback` does not touch the incidents table. -/
theorem get_incident_add_feedback (mem : MemoryManager.Memory) (iid fi : Nat)
    (ft : String) (cc rev notes : Option String) :
    MemoryManager.get_incident (MemoryManager.add_feedback mem fi ft cc rev notes).1 iid
      = MemoryManager.get_incident mem iid := rfl

/-- Feedback submitted against an incident is appended to that incident's
feedback list. -/
theorem feedback_after_add (mem : MemoryManager.Memory) (iid : Nat) (ft : String)
    (cc rev notes : Option String) :
    MemoryManager.get_feedback_for_incident
        (MemoryManager.add_feedback mem iid ft cc rev notes).1 iid
      = MemoryManager.get_feedback_for_incident mem iid
        ++ [{ id := mem.nextFeedbackId, incident_id := iid, feedback_type := ft,
              corrected_cause := cc, reviewer := rev, notes := notes }] := by
  simp only [MemoryManager.add_feedback, MemoryManager.get_feedback_for_incident]
  simp [List.filter_append]

/-- C9 (confirmed; the feedback accessors are modelled from the spec): an
Incident recorded with a primary cause string and an Observation snapshot is
retrieved by its fresh id with exactly that cause and exactly that snapshot
(hence the exact pattern count), and the incident-by-id route returns the
incident together with its attached feedback — including feedback submitted
afterwards. -/
theorem C9_round_trip (mem : MemoryManager.Memory)
    (hwf : mem.incidentIdsBounded)
    (sc rc : String) (conf : ℚ) (acts : List DecisionAgent.ActionRec)
    (outcome : Option String) (obs : ObserverAgent.Observation)
    (rsn : Option ReasoningAgent.HypothesisSet)
    (mem1 : MemoryManager.Memory) (iid : Nat)
    (hrec : MemoryManager.record_incident mem sc rc conf acts outcome (some obs) rsn
      = (mem1, iid))
    (ftype : String) (cc rev notes : Option String)
    (mem2 : MemoryManager.Memory) (fid : Nat)
    (hfb : MemoryManager.add_feedback mem1 iid ftype cc rev notes = (mem2, fid)) :
    ∃ row : MemoryManager.IncidentRow,
      MemoryManager.get_incident mem1 iid = some row
      ∧ row.root_cause = rc
      ∧ row.observation_json = some obs
      ∧ (row.observation_json.map fun o => o.patterns.length)
          = some obs.patterns.length
      ∧ Incidents.get_incident_route mem1 iid
          = Except.ok { incident := row
                        feedback := MemoryManager.get_feedback_for_incident mem1 iid }
      ∧ Incidents.get_incident_route mem2 iid
          = Except.ok { incident := row
                        feedback := MemoryManager.get_feedback_for_incident mem1 iid
                          ++ [{ id := fid, incident_id := iid, feedback_type := ftype,
                                corrected_cause := cc, reviewer := rev,
                                notes := notes }] } := by
  have hm1 : mem1 = (MemoryManager.record_incident mem sc rc conf acts outcome
      (some obs) rsn).1 := by rw [hrec]
  have hiid : iid = (MemoryManager.record_incident mem sc rc conf acts outcome
      (some obs) rsn).2 := by rw [hrec]
  have hm2 : mem2 = (MemoryManager.add_feedback mem1 iid ftype cc rev notes).1 := by
    rw [hfb]
  have hfid : fid = (MemoryManager.add_feedback mem1 iid ftype cc rev notes).2 := by
    rw [hfb]
  subst hm2
  subst hfid
  subst hm1
  subst hiid
  have hfind := get_incident_record mem hwf sc rc conf acts outcome (some obs) rsn
  refine ⟨_, hfind, rfl, rfl, rfl, ?_, ?_⟩
  · unfold Incidents.get_incident_route
    rw [hfind]
  · unfold Incidents.get_incident_route
    rw [get_incident_add_feedback, hfind, feedback_after_add]
    rfl

/-- C9 witness: the round trip evaluated on an empty memory with the
dual-pattern observation snapshot. -/
theorem C9_witness :
    ∃ row : MemoryManager.IncidentRow,
      MemoryManager.get_incident exRecordedMem 1 = some row
      ∧ row.root_cause = "Webhook endpoint misconfiguration"
      ∧ row.observation_json = some exDualObs
      ∧ (row.observation_json.map fun o => o.patterns.length)
          = some exDualObs.patterns.length
      ∧ Incidents.get_incident_route exRecordedMem 1
          = Except.ok { incident := row
                        feedback := MemoryManager.get_feedback_for_incident exRecordedMem 1 }
      ∧ Incidents.get_incident_route exFeedbackMem 1
          = Except.ok { incident := row
                        feedback := MemoryManager.get_feedback_for_incident exRecordedMem 1
                          ++ [{ id := 1, incident_id := 1, feedback_type := "correct",
                                corrected_cause := none, reviewer := some "ops",
                                notes := none }] } := by
  exact C9_round_trip {} (fun r hr => absurd hr (List.not_mem_nil r))
    "cluster" "Webhook endpoint misconfiguration" (mkRat 70 100) [] none exDualObs none
    exRecordedMem 1 (by decide) "correct" none (some "ops") none
    exFeedbackMem 1 (by decide)

-- C4 --

/-- Membership in a stable insertion. -/
theorem mem_insertSorted {α : Type} (le : α → α → Bool) (a x : α) :
    ∀ l : List α, x ∈ insertSorted le a l ↔ x = a ∨ x ∈ l := by
  intro l
  induction l with
  | nil => simp [insertSorted]
  | cons b bs ih =>
      by_cases h : le a b
      · simp [insertSorted, h]
      · simp [insertSorted, h, ih]
        tauto

/-- Membership is preserved by the insertion sort. -/
theorem mem_sortBy {α : Type} (le : α → α → Bool) (x : α) :
    ∀ l : List α, x ∈ sortBy le l ↔ x ∈ l := by
  intro l
  induction l with
  | nil => simp [sortBy]
  | cons a as ih => simp [sortBy, mem_insertSorted, ih]

/-- Rows delivered by `unprocessedRows` are rows of the store. -/
theorem unprocessedRows_subset (st : EventStore.Store) (limit : Nat) :
    ∀ r ∈ EventStore.unprocessedRows st limit, r ∈ st.rows := by
  intro r hr
  unfold EventStore.unprocessedRows at hr
  have h1 := List.take_subset _ _ hr
  have h2 := (mem_sortBy _ r _).mp h1
  exact List.mem_of_mem_filter h2

/-- Rows delivered by `unprocessedRows` carry `processed = false`. -/
theorem unprocessedRows_not_processed (st : EventStore.Store) (limit : Nat) :
    ∀ r ∈ EventStore.unprocessedRows st limit, r.processed = false := by
  intro r hr
  unfold EventStore.unprocessedRows at hr
  have h1 := List.take_subset _ _ hr
  have h2 := (mem_sortBy _ r _).mp h1
  have h3 := (List.mem_filter.mp h2).2
  simpa using h3

/-- The per-action store loop touches only the actions table. -/
theorem storeActions_incidents (mem : MemoryManager.Memory) (iid : Nat)
    (acts : List DecisionAgent.ActionRec) (conf : ℚ) :
    (DetectIncidents.storeActions mem iid acts conf).incidents = mem.incidents := by
  unfold DetectIncidents.storeActions
  generalize acts.enum = l
  induction l generalizing mem with
  | nil => rfl
  | cons a l ih =>
      rw [List.foldl_cons, ih]
      rfl

/-- C4 (confirmed; `record_full_incident` and `add_pending_action` are
modelled from the spec, see their definitions): a detection cycle on a
non-empty unprocessed batch whose observation yields at least one pattern
completes with status "completed", appends exactly one incident record,
flips exactly the `processed` flag of exactly the consumed rows — all other
fields and all other rows untouched — and the consumed rows are excluded
from the next cycle's batch. -/
theorem C4_detection_cycle (st : EventStore.Store) (mem : MemoryManager.Memory)
    (hids : st.idsPositive)
    (hne : EventStore.unprocessedRows st 500 ≠ [])
    (hp : (ObserverAgent.observe 2 (EventStore.get_unprocessed st 500)).patterns ≠ [])
    (st' : EventStore.Store) (mem' : MemoryManager.Memory)
    (jr : DetectIncidents.JobResult)
    (hrun : DetectIncidents.run_detect_incidents st mem 500 = (st', mem', jr)) :
    jr.status = "completed"
    ∧ mem'.incidents.length = mem.incidents.length + 1
    ∧ st'.rows = st.rows.map (fun r =>
        if ((EventStore.unprocessedRows st 500).map (fun r => r.id)).contains r.id then
          { r with processed := true }
        else r)
    ∧ ∀ r' ∈ EventStore.unprocessedRows st' 500,
        ((EventStore.unprocessedRows st 500).map (fun r => r.id)).contains r'.id
          = false := by
  have hevne : (EventStore.get_unprocessed st 500).isEmpty = false := by
    unfold EventStore.get_unprocessed
    cases hu : EventStore.unprocessedRows st 500 with
    | nil => exact absurd hu hne
    | cons a l => rfl
  have hpne :
      ((ObserverAgent.observe 2 (EventStore.get_unprocessed st 500)).patterns).isEmpty
        = false := by
    cases hq : (ObserverAgent.observe 2 (EventStore.get_unprocessed st 500)).patterns with
    | nil => exact absurd hq hp
    | cons a l => rfl
  have hids_eq : ((EventStore.get_unprocessed st 500).map (·.id)).filter (· ≠ 0)
      = (EventStore.unprocessedRows st 500).map (fun r => r.id) := by
    unfold EventStore.get_unprocessed
    rw [List.map_map]
    have hcomp : (EventStore.unprocessedRows st 500).map
        ((fun e : ObserverAgent.Event => e.id) ∘ EventStore.rowToEvent)
        = (EventStore.unprocessedRows st 500).map (fun r => r.id) :=
      List.map_congr_left (fun r _ => rfl)
    rw [hcomp]
    apply List.filter_eq_self.mpr
    intro x hx
    obtain ⟨r, hr, rfl⟩ := List.mem_map.mp hx
    simpa using hids r (unprocessedRows_subset st 500 r hr)
  have hidsne :
      ((EventStore.unprocessedRows st 500).map (fun r => r.id)).isEmpty = false := by
    cases hu : EventStore.unprocessedRows st 500 with
    | nil => exact absurd hu hne
    | cons a l => rfl
  have hrows : (EventStore.mark_processed st
        ((EventStore.unprocessedRows st 500).map (fun r => r.id))).rows
      = st.rows.map (fun r =>
          if ((EventStore.unprocessedRows st 500).map (fun r => r.id)).contains r.id then
            { r with processed := true }
          else r) := by
    simp only [EventStore.mark_processed, hidsne, Bool.false_eq_true, if_false]
  simp only [DetectIncidents.run_detect_incidents, hevne, hpne, Bool.false_eq_true,
    if_false, hids_eq] at hrun
  obtain ⟨hA, hBC⟩ := Prod.mk.inj hrun
  obtain ⟨hB, hC⟩ := Prod.mk.inj hBC
  subst hA
  subst hB
  subst hC
  refine ⟨rfl, ?_, hrows, ?_⟩
  · rw [storeActions_incidents]
    simp [MemoryManager.record_full_incident, MemoryManager.record_incident]
  · intro r' hr'
    have hsub := unprocessedRows_subset _ 500 r' hr'
    have hproc := unprocessedRows_not_processed _ 500 r' hr'
    rw [hrows] at hsub
    obtain ⟨r, hr, heq⟩ := List.mem_map.mp hsub
    by_cases hc :
        ((EventStore.unprocessedRows st 500).map (fun r => r.id)).contains r.id = true
    · rw [if_pos hc] at heq
      rw [← heq] at hproc
      simp at hproc
    · rw [if_neg hc] at heq
      subst heq
      simpa using hc

/-- C4 witness: the detection cycle evaluated on the two-event webhook
store with an empty memory. -/
theorem C4_witness :
    exJobOut.2.2.status = "completed"
    ∧ exJobOut.2.1.incidents.length
        = ({} : MemoryManager.Memory).incidents.length + 1
    ∧ exJobOut.1.rows = exJobStore.rows.map (fun r =>
        if ((EventStore.unprocessedRows exJobStore 500).map (fun r => r.id)).contains
            r.id then
          { r with processed := true }
        else r)
    ∧ ∀ r' ∈ EventStore.unprocessedRows exJobOut.1 500,
        ((EventStore.unprocessedRows exJobStore 500).map (fun r => r.id)).contains
            r'.id
          = false := by
  exact C4_detection_cycle exJobStore {}
    (by unfold EventStore.Store.idsPositive; decide) (by decide) (by decide)
    exJobOut.1 exJobOut.2.1 exJobOut.2.2 rfl

/-- C6 witness: the amended statement evaluated on the single timestamped
event. -/
theorem C6_witness :
    (ObserverAgent.detectTemporalSpikes [exTimedEvent]
      = if [exTimedEvent].any (fun e => ObserverAgent.eventTimestamp e ≠ "") then
          [ObserverAgent.Pattern.temporalSpike "last_2_hours" [exTimedEvent].length
            (if [exTimedEvent].length > 10 then "high" else "medium")]
        else [])
    ∧ ObserverAgent.Pattern.temporalSpike "last_2_hours" 1 "medium"
        ∈ ObserverAgent.detectTemporalSpikes [exTimedEvent] := by
  have h := C6_spike_always 3 [exTimedEvent]
  exact ⟨h.1, h.2 "last_2_hours" 1 "medium" (by decide)⟩

/-- C7 witness: the dual-pattern observation takes the 0.75 rule. -/
theorem C7_witness :
    (ReasoningAgent.reason exDualObs).primary_hypothesis.map
        (fun h => (h.cause, h.confidence))
      = some ("Migration configuration mismatch", mkRat 75 100) := by
  have h := C7_heuristic_table exDualObs (by decide)
  exact h.1 (by decide) (by decide)
